import Mathlib

/-!
Shallow embedding of the resume-screening backend (match service, RAG service,
resume controller, chat controller) and proofs about it.

Conventions:
- JS strings are modelled as Lean `String` / `List Char` (all inputs of interest
  are ASCII, where JS UTF-16 `length` coincides with the char count).
- JS numbers are modelled exactly: integers as `Nat`/`Int` (with explicit
  wrap-around where the code uses 32-bit bitwise operations), similarity values
  as `ℚ`/`ℝ`.
- External provider calls (model probes, generation, embedding requests) are
  modelled as oracle parameters; the surrounding deterministic control flow is
  translated from the source.
- Scanning functions that consume at least one character per step are written
  with an explicit fuel argument initialised to the input length, which is
  always sufficient.
-/

set_option maxRecDepth 100000

namespace ResumeScreening

/-- JS `\s` whitespace class, restricted to the ASCII characters that occur. -/
def isWS (c : Char) : Bool :=
  c = ' ' || c = '\t' || c = '\n' || c = '\r' || c = '\x0b' || c = '\x0c'

/-- JS `toLowerCase`, one character (ASCII). -/
def lcChar (c : Char) : Char := c.toLower

def lcList (l : List Char) : List Char := l.map lcChar

/-- Case-insensitive: `pat` matches the front of `l`. -/
def ciFront : List Char → List Char → Bool
  | [], _ => true
  | _ :: _, [] => false
  | p :: ps, c :: cs => (lcChar p = lcChar c) && ciFront ps cs

/-- Case-sensitive: `pat` matches the front of `l`. -/
def frontMatch : List Char → List Char → Bool
  | [], _ => true
  | _ :: _, [] => false
  | p :: ps, c :: cs => (p = c) && frontMatch ps cs

/-- Whether `pat` occurs somewhere in `l` (JS `String.prototype.includes`). -/
def occursMatch (pat : List Char) : List Char → Bool
  | [] => frontMatch pat []
  | c :: cs => frontMatch pat (c :: cs) || occursMatch pat cs

/-- JS `s.includes(sub)`. -/
def jsIncludes (s sub : String) : Bool := occursMatch sub.data s.data

/-- JS `String.prototype.trim` on the char list. -/
def jsTrim (l : List Char) : List Char :=
  ((l.dropWhile isWS).reverse.dropWhile isWS).reverse

def jsLower (s : String) : String := String.mk (lcList s.data)

/-- JS `[...new Set(l)]`: deduplication keeping first occurrences, in order. -/
def dedupFirstGo : List String → List String → List String
  | _, [] => []
  | seen, x :: xs =>
    if x ∈ seen then dedupFirstGo seen xs else x :: dedupFirstGo (x :: seen) xs

def dedupFirst (l : List String) : List String := dedupFirstGo [] l

/-- JS `s.split(sep)` for a non-empty literal separator (fuelled scanner;
    fuel = input length always suffices since every step consumes ≥ 1 char). -/
def splitLitGo (sep : List Char) : Nat → List Char → List Char → List (List Char)
  | 0, l, acc => [acc.reverse ++ l]
  | _ + 1, [], acc => [acc.reverse]
  | f + 1, c :: cs, acc =>
    if frontMatch sep (c :: cs) then
      acc.reverse :: splitLitGo sep f ((c :: cs).drop sep.length) []
    else
      splitLitGo sep f cs (c :: acc)

def jsSplitLit (sep : String) (s : String) : List String :=
  (splitLitGo sep.data s.data.length s.data []).map String.mk

/-! ## matchService: regex-based skill extraction

`extractSkillsWithRegex` applies a list of case-insensitive global regexes, each
of which is an alternation of literal strings, and additionally collects
capitalized multi-word terms via `/[A-Z][a-zA-Z]*(?:\s+[A-Z][a-zA-Z]*)*/g`. -/

/-- Try the alternatives of one pattern, in order, at the current position.
    Returns the number of characters consumed (all alternatives are non-empty,
    so the count is positive). -/
def tryAlts : List (List Char) → List Char → Option Nat
  | [], _ => none
  | p :: ps, l =>
    match p with
    | [] => tryAlts ps l
    | q :: qs => if ciFront (q :: qs) l then some (qs.length + 1) else tryAlts ps l

/-- All matches of a `/gi` alternation-of-literals regex, scanning left to
    right, non-overlapping, preserving the capitalisation found in the text. -/
def scanMatchesGo (alts : List (List Char)) : Nat → List Char → List (List Char)
  | 0, _ => []
  | _ + 1, [] => []
  | f + 1, c :: cs =>
    match tryAlts alts (c :: cs) with
    | some n => (c :: cs).take n :: scanMatchesGo alts f ((c :: cs).drop n)
    | none => scanMatchesGo alts f cs

def scanMatches (alts : List (List Char)) (l : List Char) : List (List Char) :=
  scanMatchesGo alts l.length l

def strL (s : String) : List Char := s.data

/-- Source `cleanMatch.replace(/^(Experience with|Knowledge of|Proficiency in|Skills in)\s+/i, ...)`, replacing with the empty string. -/
def stripLeadAlt : List (List Char) → List Char → List Char
  | [], l => l
  | p :: ps, l =>
    if ciFront p l then
      match l.drop p.length with
      | d :: rest => if isWS d then (d :: rest).dropWhile isWS else stripLeadAlt ps l
      | [] => stripLeadAlt ps l
    else stripLeadAlt ps l

/-- Source `cleanMatch.replace(/\s+(experience|knowledge|skills|proficiency)$/i, ...)`, replacing with the empty string.
    The candidate words are pairwise non-suffixes of each other, so at most one
    can match the end of the string; the regex removes the maximal whitespace
    run before it. -/
def stripTrailWord : List (List Char) → List Char → List Char
  | [], l => l
  | w :: ws, l =>
    let r := l.reverse
    if ciFront w.reverse r then
      match r.drop w.length with
      | d :: rest =>
        if isWS d then ((d :: rest).dropWhile isWS).reverse else stripTrailWord ws l
      | [] => stripTrailWord ws l
    else stripTrailWord ws l

def cleanLeadAlts : List (List Char) :=
  [strL "Experience with", strL "Knowledge of", strL "Proficiency in", strL "Skills in"]

def cleanTrailWords : List (List Char) :=
  [strL "experience", strL "knowledge", strL "skills", strL "proficiency"]

def cleanMatch (m : List Char) : List Char :=
  stripTrailWord cleanTrailWords (stripLeadAlt cleanLeadAlts (jsTrim m))

/-- The `techPatterns` array: each regex, in source order, as its ordered list
    of literal alternatives. -/
def techPatterns : List (List (List Char)) := [
  [strL "AWS", strL "Amazon Web Services"],
  [strL "GCP", strL "Google Cloud Platform", strL "Google Cloud"],
  [strL "Azure", strL "Microsoft Azure"],
  [strL "EC2", strL "Elastic Compute Cloud"],
  [strL "S3", strL "Simple Storage Service"],
  [strL "IAM", strL "Identity and Access Management"],
  [strL "Lambda", strL "AWS Lambda"],
  [strL "EKS", strL "Elastic Kubernetes Service"],
  [strL "ECS", strL "Elastic Container Service"],
  [strL "Fargate"],
  [strL "Glue"],
  [strL "Athena"],
  [strL "CloudWatch"],
  [strL "GKE", strL "Google Kubernetes Engine"],
  [strL "GCE", strL "Google Compute Engine"],
  [strL "VPC", strL "Virtual Private Cloud"],
  [strL "Kubernetes", strL "k8s"],
  [strL "Docker"],
  [strL "Helm"],
  [strL "ArgoCD"],
  [strL "GitOps"],
  [strL "Jenkins"],
  [strL "GitLab CI"],
  [strL "GitHub Actions"],
  [strL "CircleCI"],
  [strL "Travis CI"],
  [strL "CI/CD", strL "Continuous Integration", strL "Continuous Deployment"],
  [strL "Prometheus"],
  [strL "Grafana"],
  [strL "ELK Stack"],
  [strL "Elasticsearch"],
  [strL "Logstash"],
  [strL "Kibana"],
  [strL "Splunk"],
  [strL "Datadog"],
  [strL "Nginx"],
  [strL "Apache"],
  [strL "HTTPS"],
  [strL "SSL", strL "TLS"],
  [strL "DNS"],
  [strL "Load Balancer"],
  [strL "Python"],
  [strL "Java"],
  [strL "JavaScript"],
  [strL "TypeScript"],
  [strL "Go", strL "Golang"],
  [strL "C++"],
  [strL "C#"],
  [strL "PHP"],
  [strL "Ruby"],
  [strL "Rust"],
  [strL "Bash"],
  [strL "Shell scripting"],
  [strL "React"],
  [strL "Angular"],
  [strL "Vue.js"],
  [strL "Node.js"],
  [strL "Express"],
  [strL "HTML"],
  [strL "CSS"],
  [strL "JSP", strL "Java Server Pages"],
  [strL "Servlet"],
  [strL "MVC", strL "Model View Controller"],
  [strL "Bootstrap"],
  [strL "MERN"],
  [strL "MySQL"],
  [strL "PostgreSQL"],
  [strL "MongoDB"],
  [strL "Redis"],
  [strL "Oracle"],
  [strL "SQL"],
  [strL "PL/SQL"],
  [strL "Terraform"],
  [strL "CloudFormation"],
  [strL "Ansible"],
  [strL "Agile"],
  [strL "Scrum"],
  [strL "DevOps"],
  [strL "SRE", strL "Site Reliability Engineer"],
  [strL "Microservices"],
  [strL "REST", strL "RESTful"],
  [strL "GraphQL"],
  [strL "OAuth"],
  [strL "JWT"],
  [strL "Encryption"],
  [strL "Firewall"],
  [strL "Trivy"],
  [strL "SonarQube"],
  [strL "Linux"],
  [strL "Unix"],
  [strL "Windows"],
  [strL "Ubuntu"],
  [strL "CentOS"],
  [strL "ERP"],
  [strL "CRM"],
  [strL "API"],
  [strL "JSON"],
  [strL "XML"],
  [strL "Git"],
  [strL "Troubleshooting"],
  [strL "Debugging"],
  [strL "VPS", strL "Virtual Private Server"],
  [strL "RCA", strL "Root Cause Analysis"],
  [strL "On-call"],
  [strL "Incident Response"]
]

/-- The per-pattern extraction loop: for each pattern, clean every match and
    keep it if its length exceeds 1. -/
def patternSkills (text : List Char) : List (List Char) :=
  techPatterns.foldl
    (fun acc pat =>
      acc ++ ((scanMatches pat text).map cleanMatch).filter (fun m => 1 < m.length))
    []

def isUpperA (c : Char) : Bool := 'A' ≤ c && c ≤ 'Z'

def isAlphaA (c : Char) : Bool := isUpperA c || ('a' ≤ c && c ≤ 'z')

/-- The `(?:\s+[A-Z][a-zA-Z]*)*` tail of the capitalized-terms regex: greedily
    consume whitespace-then-capitalized-word groups. Returns the consumed
    characters and the remainder. -/
def grabTailGo : Nat → List Char → (List Char × List Char)
  | 0, l => ([], l)
  | f + 1, l =>
    let ws := l.takeWhile isWS
    if ws.isEmpty then ([], l)
    else
      match l.drop ws.length with
      | c :: rest =>
        if isUpperA c then
          let word := c :: rest.takeWhile isAlphaA
          let p := grabTailGo f (rest.dropWhile isAlphaA)
          (ws ++ word ++ p.1, p.2)
        else ([], l)
      | [] => ([], l)

/-- All matches of `/[A-Z][a-zA-Z]*(?:\s+[A-Z][a-zA-Z]*)*/g`. -/
def capScanGo : Nat → List Char → List (List Char)
  | 0, _ => []
  | _ + 1, [] => []
  | f + 1, c :: cs =>
    if isUpperA c then
      let word := c :: cs.takeWhile isAlphaA
      let p := grabTailGo f (cs.dropWhile isAlphaA)
      (word ++ p.1) :: capScanGo f p.2
    else capScanGo f cs

def capStopWords : List String :=
  ["The", "And", "Or", "In", "On", "At", "To", "For", "With", "Of", "As", "By",
   "Is", "Are", "Was", "Were", "That", "This", "Which", "What", "How", "When",
   "Where", "Why", "Who", "Whom", "Whose"]

/-- The filter applied to each capitalized term. -/
def capTermKeep (term : List Char) : Bool :=
  1 < term.length && term.length < 30 &&
    !(capStopWords.any (fun w => lcList w.data = lcList term))

def capSkills (text : List Char) : List (List Char) :=
  (capScanGo text.length text).filter capTermKeep

/-- Model of `extractSkillsWithRegex`. -/
def extractSkillsWithRegex (text : String) : List String :=
  dedupFirst ((patternSkills text.data ++ capSkills text.data).map String.mk)

/-- The `genericTerms` stop list, transcribed in source order. -/
def genericTerms : List String :=
  ["experience", "knowledge", "skills", "ability", "proficiency",
   "familiarity", "understanding", "expertise", "competency",
   "capabilities", "qualifications", "requirements", "responsibilities",
   "duties", "tasks", "role", "position", "job", "work",
   "development", "implementation", "management", "support",
   "assistance", "help", "aid", "guidance", "direction",
   "leadership", "supervision", "oversight", "control",
   "planning", "organizing", "coordinating", "executing",
   "performing", "accomplishing", "achieving", "delivering",
   "providing", "offering", "giving", "contributing",
   "participating", "engaging", "involving", "partaking",
   "collaborating", "cooperating", "working", "teamwork",
   "communication", "interaction", "discussion", "conversation",
   "meeting", "gathering", "assembly", "conference",
   "problem", "issue", "challenge", "difficulty", "obstacle",
   "solution", "resolution", "answer", "response", "reply",
   "improvement", "enhancement", "optimization", "refinement",
   "process", "procedure", "method", "approach", "technique",
   "tool", "instrument", "device", "equipment", "resource",
   "system", "platform", "environment", "infrastructure",
   "technology", "tech", "digital", "virtual", "online",
   "service", "product", "solution", "application", "app",
   "software", "program", "code", "script", "algorithm",
   "data", "information", "content", "material", "document",
   "project", "initiative", "program", "campaign", "effort",
   "goal", "objective", "target", "aim", "purpose",
   "result", "outcome", "achievement", "accomplishment",
   "benefit", "advantage", "value", "gain", "profit",
   "quality", "standard", "level", "degree", "extent",
   "performance", "execution", "operation", "function",
   "activity", "action", "task", "assignment", "responsibility",
   "duty", "obligation", "requirement", "necessity",
   "need", "demand", "request", "desire", "want",
   "preference", "choice", "option", "alternative", "possibility",
   "opportunity", "chance", "prospect", "potential", "capability",
   "capacity", "ability", "skill", "competence", "proficiency",
   "while", "using", "with", "in", "on", "at", "to", "for", "of", "from", "about",
   "the", "and", "or", "but", "is", "are", "was", "were", "be", "been", "have",
   "has", "had", "do", "does", "did",
   "will", "would", "could", "should", "may", "might", "must", "can",
   "this", "that", "these", "those", "a", "an", "as", "by", "if", "it", "so",
   "up", "us", "we",
   "what", "how", "when", "where", "why", "who", "whom", "whose", "which",
   "assist", "contribute", "collaborate", "monitor", "qualifications", "bachelor",
   "computer", "science", "information", "technology", "solid", "hands", "compute",
   "engine", "interest", "strong", "awareness", "exposure", "what", "we", "offer",
   "responsibilities", "rest"]

def isDigits (s : String) : Bool :=
  !s.data.isEmpty && s.data.all (fun c => '0' ≤ c && c ≤ '9')

/-- Model of `filterGenericTerms`. -/
def filterGenericTerms (skills : List String) : List String :=
  (skills.map (fun s => String.mk (jsTrim s.data))).filter
    (fun skill =>
      let lowerSkill := jsLower skill
      2 < skill.length && !(genericTerms.contains lowerSkill) &&
        !(isDigits lowerSkill) && skill.length < 30)

/-- The skill list each document contributes to `generateBasicAnalysis`. -/
def cleanSkillsOf (text : String) : List String :=
  filterGenericTerms (extractSkillsWithRegex text)

/-- The case-insensitive bidirectional substring containment used to match a
    job skill against the resume skills. -/
def skillMatches (resumeSkills : List String) (jobSkill : String) : Bool :=
  resumeSkills.any (fun r =>
    jsIncludes (jsLower r) (jsLower jobSkill) || jsIncludes (jsLower jobSkill) (jsLower r))

def matchedSkillsOf (resumeText jobText : String) : List String :=
  (cleanSkillsOf jobText).filter (skillMatches (cleanSkillsOf resumeText))

def unmatchedSkillsOf (resumeText jobText : String) : List String :=
  (cleanSkillsOf jobText).filter (fun j => !(skillMatches (cleanSkillsOf resumeText) j))

/-- JS `Math.round((m / j) * 100)` for natural `m ≤ j`, computed exactly:
    `round(x) = ⌊x + 1/2⌋`. -/
def jsRoundPct (m j : Nat) : Nat := (200 * m + j) / (2 * j)

/-- The fallback score: `jobSkills.length > 0 ? Math.round(...) : 0`. -/
def basicScore (resumeText jobText : String) : Nat :=
  if 0 < (cleanSkillsOf jobText).length then
    jsRoundPct (matchedSkillsOf resumeText jobText).length (cleanSkillsOf jobText).length
  else 0

def scoreAdjective (score : Nat) : String :=
  if 80 ≤ score then "strong" else if 60 ≤ score then "moderate" else "weak"

def scoreAdjectiveCap (score : Nat) : String :=
  if 80 ≤ score then "Strong match" else if 60 ≤ score then "Moderate match" else "Weak match"

/-- The object returned by `generateBasicAnalysis`, with its derived fields. -/
structure BasicAnalysis where
  overallMatch : String
  summary : String
  experienceStrong : List String
  experienceWeak : List String
  insights : List String
  improvements : List String
  overallReadiness : String
  assessment : String
  deriving DecidableEq

/-- Model of `generateBasicAnalysis` (the deterministic skill-overlap heuristic). -/
def generateBasicAnalysis (resumeText jobText : String) : BasicAnalysis :=
  let matchedSkills := matchedSkillsOf resumeText jobText
  let unmatchedSkills := unmatchedSkillsOf resumeText jobText
  let score := basicScore resumeText jobText
  { overallMatch := toString score ++ "%",
    summary := "Based on skill matching analysis, you have " ++ toString matchedSkills.length ++
      " out of " ++ toString (cleanSkillsOf jobText).length ++ " required skills. You are a " ++
      scoreAdjective score ++ " match for this role.",
    experienceStrong := matchedSkills.take 10,
    experienceWeak := unmatchedSkills.take 10,
    insights :=
      ["Match score: " ++ toString score ++ "%. " ++ scoreAdjectiveCap score ++ " for this role.",
       "Key strengths: " ++ String.intercalate ", " (matchedSkills.take 5),
       "Missing skills: " ++ String.intercalate ", " (unmatchedSkills.take 5)],
    improvements :=
      ["Focus on developing the missing skills to improve your match score.",
       "Consider gaining practical experience through projects or internships.",
       "Tailor your resume to better highlight your existing skills and experience."],
    overallReadiness := toString score ++ "%",
    assessment := "Analysis completed with basic matching. For a more detailed analysis, ensure your API key is configured correctly." }

/-- The object produced by `parseAnalysisText` on the primary path. -/
structure ParsedAnalysis where
  overallMatch : String
  strengths : List String
  gaps : List String
  insights : List String
  summary : String
  deriving DecidableEq

/-- The value returned by `calculateMatchScore`. -/
structure MatchScoreResult where
  score : Nat
  strengths : List String
  gaps : List String
  insights : List String
  structuredAnalysis : Option ParsedAnalysis
  deriving DecidableEq

/-- Model of `calculateMatchScore`, with the provider-backed primary step
    (`generateStructuredAnalysis`) abstracted as an `Except` outcome.
    On success, the parsed object has no `improvements`, `finalVerdict` or
    `experienceMatch` properties, so the optional-chaining accesses all yield
    the defaults (score 85, empty lists).  On failure, the `catch` block
    returns a hard-coded degraded result; `generateBasicAnalysis` is not
    invoked anywhere. -/
def calculateMatchScore (primary : Except String ParsedAnalysis) : MatchScoreResult :=
  match primary with
  | .ok analysis =>
    { score := 85, strengths := [], gaps := [], insights := [],
      structuredAnalysis := some analysis }
  | .error _ =>
    { score := 0, strengths := [], gaps := [],
      insights := ["Error occurred during matching"], structuredAnalysis := none }

/-! ## ragService: document chunking (`processDocument`) -/

/-- Index of the last `'\n'` in a list, if any. -/
def lastNL : List Char → Option Nat
  | [] => none
  | c :: cs =>
    match lastNL cs with
    | some p => some (p + 1)
    | none => if c = '\n' then some 0 else none

/-- Length of the match of `/\n\s*\n/` at the front of the list, if any:
    a newline, then the greedy whitespace run backtracked to its last newline. -/
def blankSepLen : List Char → Option Nat
  | '\n' :: rest =>
    match lastNL (rest.takeWhile isWS) with
    | some p => some (p + 2)
    | none => none
  | _ => none

/-- Source `text.split(/\n\s*\n/)` (fuelled scanner, fuel = length suffices). -/
def blankSplitGo : Nat → List Char → List Char → List (List Char)
  | 0, l, acc => [acc.reverse ++ l]
  | _ + 1, [], acc => [acc.reverse]
  | f + 1, c :: cs, acc =>
    match blankSepLen (c :: cs) with
    | some n => acc.reverse :: blankSplitGo f ((c :: cs).drop n) []
    | none => blankSplitGo f cs (c :: acc)

/-- Source `text.split(/\n\s*\n/).filter(p => p.trim().length > 0)`. -/
def paragraphsOf (t : String) : List String :=
  ((blankSplitGo t.data.length t.data []).map String.mk).filter
    (fun p => !(jsTrim p.data).isEmpty)

/-- Length of the match of `/(?<=[.!?])\s+/` at the current position, given the
    previous character: a greedy whitespace run preceded by `.`, `!` or `?`. -/
def sentSepLen (prev : Char) : List Char → Option Nat
  | c :: rest =>
    if (prev = '.' || prev = '!' || prev = '?') && isWS c then
      some (1 + (rest.takeWhile isWS).length)
    else none
  | [] => none

/-- Source `paragraph.split(/(?<=[.!?])\s+/)`.  After a separator the previous
    character is whitespace, which is never in `[.!?]`, so it is passed as a
    plain space. -/
def sentSplitGo : Nat → Char → List Char → List Char → List (List Char)
  | 0, _, l, acc => [acc.reverse ++ l]
  | _ + 1, _, [], acc => [acc.reverse]
  | f + 1, prev, c :: cs, acc =>
    match sentSepLen prev (c :: cs) with
    | some n => acc.reverse :: sentSplitGo f ' ' ((c :: cs).drop n) []
    | none => sentSplitGo f c cs (c :: acc)

/-- The sentence list of a paragraph.  The initial previous character is a NUL,
    so the lookbehind cannot match at position 0 (as in JS). -/
def sentencesOf (p : String) : List String :=
  (sentSplitGo p.data.length '\x00' p.data []).map String.mk

def chunkSize : Nat := 800

/-- The greedy sentence-packing loop of `processDocument`: the guard always
    counts the joining space, and the accumulator only inserts it when
    non-empty, exactly as in the source. -/
def packGo : List String → List String → String → List String
  | [], chunks, current => if current = "" then chunks else chunks ++ [current]
  | s :: rest, chunks, current =>
    if (current ++ " " ++ s).length ≤ chunkSize then
      packGo rest chunks (if current = "" then s else current ++ " " ++ s)
    else
      packGo rest (if current = "" then chunks else chunks ++ [current]) s

/-- Per-paragraph chunking: a paragraph within the limit is one chunk; an
    oversized paragraph is sentence-split and greedily packed. -/
def chunkPara (p : String) : List String :=
  if p.length ≤ chunkSize then [p] else packGo (sentencesOf p) [] ""

/-- Model of `processDocument`. -/
def processDocument (t : String) : List String :=
  (paragraphsOf t).flatMap chunkPara

/-! ## ragService / matchService: `getBestModel` -/

def PREFERRED_MODELS : List String :=
  ["models/gemini-2.5-flash-lite", "models/gemini-2.0-flash-lite",
   "models/gemini-2.0-flash", "models/gemini-2.5-flash", "models/gemini-2.5-pro"]

def matchFallbackModel : String := "models/gemini-pro-latest"

def noModelsMsg : String :=
  "No available models found. Please check your API key and network connection."

/-- Model of `getBestModel` in the match service: cached model returned unchecked;
    otherwise the first preferred model whose probe (`generateContent` with a trivial prompt)
    succeeds is cached and returned; if all fail, the single designated
    fallback identifier is probed; if that fails too, a fixed error is thrown.
    The probe outcome is an oracle.  Result: (new cache, outcome). -/
def matchGetBestModel (cache : Option String) (probe : String → Bool) :
    Option String × Except String String :=
  match cache with
  | some m => (some m, .ok m)
  | none =>
    match PREFERRED_MODELS.find? probe with
    | some m => (some m, .ok m)
    | none =>
      if probe matchFallbackModel then (some matchFallbackModel, .ok matchFallbackModel)
      else (none, .error noModelsMsg)

/-- Model of `getBestModel` in the RAG service: the first loop requires the
    model object to construct (`getGenerativeModel`) and the probe request to
    return a text containing the phrase `Model test successful`; the second, fallback
    loop re-iterates the same preference list and caches the first model whose
    construction succeeds, without any probe. -/
def ragGetBestModel (cache : Option String) (construct : String → Bool)
    (testPassed : String → Bool) : Option String × Except String String :=
  match cache with
  | some m => (some m, .ok m)
  | none =>
    match PREFERRED_MODELS.find? (fun m => construct m && testPassed m) with
    | some m => (some m, .ok m)
    | none =>
      match PREFERRED_MODELS.find? construct with
      | some m => (some m, .ok m)
      | none => (none, .error noModelsMsg)

/-! ## ragService: embeddings (`generateEmbeddings`, `storeEmbeddings`) -/

/-- JS `ToInt32`: reduce an integer to the signed 32-bit range. -/
def toInt32 (n : Int) : Int :=
  let m := n % 4294967296
  if m < 2147483648 then m else m - 4294967296

/-- JS `%` on integers: remainder with the sign of the dividend. -/
def jsRem (a b : Int) : Int := if 0 ≤ a then a % b else -((-a) % b)

/-- One step of `hash = ((hash << 5) - hash + chunk.charCodeAt(k) + j) & 0xffffffff`. -/
def hashStep (j : Int) (h : Int) (c : Char) : Int :=
  toInt32 (toInt32 (h * 32) - h + (c.toNat : Int) + j)

def hashOf (text : List Char) (j : Nat) : Int := text.foldl (hashStep (j : Int)) 0

/-- One coordinate of the mock embedding: `(hash % 10000) / 10000`. -/
def mockVal (text : List Char) (j : Nat) : ℚ := (jsRem (hashOf text j) 10000 : ℤ) / 10000

/-- The deterministic 768-dimensional fallback embedding of a chunk text. -/
def mockEmbedding (text : String) : List ℚ :=
  (List.range 768).map (fun j => mockVal text.data j)

structure EmbedEntry where
  id : Nat
  text : String
  embedding : List ℚ
  deriving DecidableEq

/-- Model of `generateEmbeddings`: per-chunk provider call abstracted as an
    oracle (`none` = the call threw); a failed chunk gets the deterministic
    mock embedding.  If model resolution itself fails, the outer catch builds
    `Math.random()` embeddings, abstracted as the `rand` oracle. -/
def generateEmbeddings (modelRes : Except String Unit)
    (provider : Nat → String → Option (List ℚ)) (rand : Nat → List ℚ)
    (chunks : List String) : List EmbedEntry :=
  match modelRes with
  | .ok _ =>
    chunks.enum.map (fun p =>
      match provider p.1 p.2 with
      | some emb => { id := p.1, text := p.2, embedding := emb }
      | none => { id := p.1, text := p.2, embedding := mockEmbedding p.2 })
  | .error _ =>
    chunks.enum.map (fun p => { id := p.1, text := p.2, embedding := rand p.1 })

/-- The in-memory vector store, as a total map from keys to entry lists
    (an absent key reads as `[]`, matching `vectorStore[key] || []`). -/
def storeEmbeddings (store : String → List EmbedEntry) (analysisId type : String)
    (embeddings : List EmbedEntry) : String → List EmbedEntry :=
  fun k => if k = analysisId ++ "_" ++ type then embeddings else store k

/-- Source `[...resumeEmbeddings, ...jobEmbeddings]`. -/
def allEmbeddingsOf (store : String → List EmbedEntry) (analysisId : String) :
    List EmbedEntry :=
  store (analysisId ++ "_resume") ++ store (analysisId ++ "_job")

/-! ## ragService: `cosineSimilarity` -/

/-- Source `a.reduce((sum, _, i) => sum + a[i] * b[i], 0)` on equal-length vectors. -/
def listDot (a b : List ℚ) : ℚ := (List.zipWith (· * ·) a b).sum

/-- Source `a.reduce((sum, val) => sum + val * val, 0)`. -/
def listSumSq (a : List ℚ) : ℚ := (a.map (fun v => v * v)).sum

def isZeroVec (a : List ℚ) : Bool := a.all (fun v => v = 0)

/-- Model of `cosineSimilarity`: 0 on length mismatch, 0 when either magnitude is zero,
    otherwise the dot product over the product of magnitudes.  The float
    computation is idealised over ℝ. -/
noncomputable def cosineSimilarity (a b : List ℚ) : ℝ :=
  if a.length ≠ b.length then 0
  else
    if Real.sqrt (listSumSq a : ℚ) = 0 ∨ Real.sqrt (listSumSq b : ℚ) = 0 then 0
    else (listDot a b : ℚ) / (Real.sqrt (listSumSq a : ℚ) * Real.sqrt (listSumSq b : ℚ))

/-! ## ragService: `searchEmbeddings` -/

structure ScoredEntry where
  id : Nat
  text : String
  embedding : List ℚ
  similarity : ℝ

/-- The comparator `(a, b) => b.similarity - a.similarity` orders by
    non-increasing similarity; JS `Array.prototype.sort` is stable. -/
def simGE (a b : ScoredEntry) : Prop := b.similarity ≤ a.similarity

noncomputable instance : DecidableRel simGE :=
  fun _ _ => inferInstanceAs (Decidable (_ ≤ _))

instance : IsTotal ScoredEntry simGE := ⟨fun a b => le_total b.similarity a.similarity⟩

instance : IsTrans ScoredEntry simGE := ⟨fun _ _ _ h₁ h₂ => le_trans h₂ h₁⟩

noncomputable def scoreEntry (qe : List ℚ) (e : EmbedEntry) : ScoredEntry :=
  { id := e.id, text := e.text, embedding := e.embedding,
    similarity := cosineSimilarity qe e.embedding }

/-- The similarity-annotated candidate list of `searchEmbeddings`; empty in
    each early-return branch (missing inputs, empty store, failed query
    embedding). -/
noncomputable def searchPool (queryRes : Except String (List ℚ))
    (store : String → List EmbedEntry) (query analysisId : String) :
    List ScoredEntry :=
  if query = "" || analysisId = "" then []
  else if (allEmbeddingsOf store analysisId).isEmpty then []
  else
    match queryRes with
    | .error _ => []
    | .ok qe => (allEmbeddingsOf store analysisId).map (scoreEntry qe)

/-- Model of `searchEmbeddings`: stable sort by descending similarity, then
    `slice(0, 5)`. -/
noncomputable def searchEmbeddings (queryRes : Except String (List ℚ))
    (store : String → List EmbedEntry) (query analysisId : String) :
    List ScoredEntry :=
  (List.insertionSort simGE (searchPool queryRes store query analysisId)).take 5

/-! ## Analyses, chat controller (`askQuestion`), `generateResponse` -/

inductive AnalysisStatus where
  | uploaded
  | processing
  | completed
  | error
  deriving DecidableEq

structure AnalysisResults where
  matchScore : Nat
  resumeText : String
  jobDescriptionText : String
  deriving DecidableEq

structure AnalysisRecord where
  status : AnalysisStatus
  resumeData : String
  jobData : String
  results : Option AnalysisResults
  errorMsg : Option String
  deriving DecidableEq

def statusText : AnalysisStatus → String
  | .uploaded => "uploaded"
  | .processing => "processing"
  | .completed => "completed"
  | .error => "error"

/-- A retrieved-context item as the chat controller sees it.  The mock
    similarity scores 0.5 and 0.7 are represented exactly in ℚ. -/
structure CtxItem where
  text : String
  similarity : ℚ
  deriving DecidableEq

inductive ChatResponse where
  | badRequest (msg : String)
  | notFound (msg : String)
  | serverError (msg : String)
  | answered (answer : String) (sources : List CtxItem)
  deriving DecidableEq

/-- First fallback: resume text split on blank separators, chunks with trimmed
    length over 50, first 10, with mock similarity 0.5. -/
def fallbackChunkItems (resumeText : String) : List CtxItem :=
  (((jsSplitLit "\n\n" resumeText).filter
      (fun c => 50 < (jsTrim c.data).length)).take 10).map
    (fun t => { text := t, similarity := 1 / 2 })

def keyLinePred (line : String) : Bool :=
  (jsIncludes (jsLower line) "project" || jsIncludes (jsLower line) "achievement" ||
   jsIncludes (jsLower line) "experience" || jsIncludes (jsLower line) "work" ||
   jsIncludes (jsLower line) "role" || jsIncludes (jsLower line) "responsibility") &&
  20 < line.length

/-- Second fallback: project/experience-flavoured lines of length over 20. -/
def keyLines (resumeText : String) : List String :=
  (jsSplitLit "\n" resumeText).filter keyLinePred

def keyLineItems (resumeText : String) : List CtxItem :=
  ((keyLines resumeText).take 5).map (fun t => { text := t, similarity := 7 / 10 })

def hasResumeText (rec : AnalysisRecord) : Bool :=
  match rec.results with
  | some r => !r.resumeText.isEmpty
  | none => false

def resumeTextOf (rec : AnalysisRecord) : String :=
  match rec.results with
  | some r => r.resumeText
  | none => ""

/-- The grounding prompt of `generateResponse`. -/
def ragPrompt (question contextText : String) : String :=
  "You are an expert HR analyst and technical recruiter. Based on the provided resume context, please answer the following question accurately and specifically.\n\nContext from resume:\n\"" ++
  contextText ++ "\"\n\nQuestion: \"" ++ question ++
  "\"\n\nPlease provide a detailed, accurate answer based ONLY on the information provided in the context above. If the information is not available in the context, please state that clearly. Be specific and provide examples when possible."

/-- Model of `generateResponse`: throws on a missing question or on an empty
    context list; otherwise sends the grounding prompt through the provider
    (oracle `gen`, whose failure is rethrown). -/
def generateResponse (gen : String → Except String String) (question : String)
    (context : List CtxItem) : Except String String :=
  if question = "" then .error "Missing question or context for response generation"
  else if context.isEmpty then .error "No context available to answer this question"
  else gen (ragPrompt question (String.intercalate "\n\n" (context.map CtxItem.text)))

/-- Model of `askQuestion` (chat controller).  The retrieval step
    (`searchEmbeddings`) and the generation step are oracles; everything else
    is the deterministic control flow of the controller. -/
def askQuestion (storage : String → Option AnalysisRecord)
    (searchRes : Except String (List CtxItem))
    (gen : String → List CtxItem → Except String String)
    (analysisId question : String) : ChatResponse :=
  if analysisId = "" || question = "" then
    .badRequest "analysisId and question are required"
  else if analysisId.length < 5 then .badRequest "Invalid analysisId format"
  else if String.mk (jsTrim question.data) = "" then .badRequest "Question cannot be empty"
  else
    match storage analysisId with
    | none => .notFound ("Analysis not found for ID: " ++ analysisId)
    | some analysis =>
      if analysis.status ≠ AnalysisStatus.completed then
        .badRequest ("Analysis not completed. Current status: " ++ statusText analysis.status)
      else
        match searchRes with
        | .error _ => .serverError "Failed to search context. Please try again."
        | .ok found =>
          let ctx1 := found
          let ctx2 :=
            if ctx1.isEmpty && hasResumeText analysis then
              fallbackChunkItems (resumeTextOf analysis)
            else ctx1
          let ctx3 :=
            if ctx2.isEmpty && hasResumeText analysis then
              if !(keyLines (resumeTextOf analysis)).isEmpty then
                keyLineItems (resumeTextOf analysis)
              else ctx2
            else ctx2
          if ctx3.isEmpty then
            .badRequest "No context available to answer this question. Please ensure the analysis is complete."
          else
            match gen question ctx3 with
            | .error _ => .serverError "Failed to generate response. Please try again."
            | .ok answer => .answered answer ctx3

/-! ## resumeController: `analyzeResume` and the processing queue -/

structure ServerState where
  storage : String → Option AnalysisRecord
  queue : List String

def updateStore (f : String → Option AnalysisRecord) (id : String)
    (v : AnalysisRecord) : String → Option AnalysisRecord :=
  fun s => if s = id then some v else f s

inductive AnalyzeResponse where
  | invalidId
  | alreadyInProgress
  | alreadyCompleted (results : Option AnalysisResults)
  | previousFailed (details : String)
  | completedOk (results : AnalysisResults)
  | processingFailed (details : String)
  deriving DecidableEq

/-- The state visible while a run is in flight: the record is marked
    `processing` and the identifier has been added to the processing queue,
    before any processing step executes. -/
def midState (st : ServerState) (id : String) (rec : AnalysisRecord) : ServerState :=
  { storage := updateStore st.storage id { rec with status := AnalysisStatus.processing },
    queue := id :: st.queue }

/-- Model of `analyzeResume` (resume controller).  The whole processing pipeline
    (parse, chunk, embed, store, score) is the oracle `run`; the model keeps
    the guard structure of the controller: invalid id, in-flight rejection (202),
    already-completed and previous-error short circuits, then the transition
    through `midState`, with the queue entry removed in the `finally`. -/
def analyzeResume (st : ServerState) (id : String)
    (run : AnalysisRecord → Except String AnalysisResults) :
    ServerState × AnalyzeResponse :=
  if id = "" then (st, .invalidId)
  else
    match st.storage id with
    | none => (st, .invalidId)
    | some rec =>
      if id ∈ st.queue then (st, .alreadyInProgress)
      else
        match rec.status with
        | .completed => (st, .alreadyCompleted rec.results)
        | .error => (st, .previousFailed (rec.errorMsg.getD "Unknown error"))
        | _ =>
          let mid := midState st id rec
          match run rec with
          | .ok res =>
            ({ storage := updateStore mid.storage id
                 { rec with status := AnalysisStatus.completed, results := some res },
               queue := mid.queue.erase id },
             .completedOk res)
          | .error e =>
            ({ storage := updateStore mid.storage id
                 { rec with status := AnalysisStatus.error, errorMsg := some e },
               queue := mid.queue.erase id },
             .processingFailed e)

/-! ## Theorems -/

/- Helper lemmas (shared; not tied to any single claim). -/

theorem length_filter_mono {α : Type} (l : List α) (p q : α → Bool)
    (h : ∀ x ∈ l, p x = true → q x = true) :
    (l.filter p).length ≤ (l.filter q).length := by
  induction l with
  | nil => simp
  | cons x xs ih =>
    have hx := h x (List.mem_cons_self x xs)
    have ih' := ih (fun y hy => h y (List.mem_cons_of_mem x hy))
    by_cases hp : p x = true
    · rw [List.filter_cons_of_pos hp, List.filter_cons_of_pos (hx hp)]
      simpa using ih'
    · rw [List.filter_cons_of_neg (by simpa using hp)]
      by_cases hq : q x = true
      · rw [List.filter_cons_of_pos hq]
        exact Nat.le_trans ih' (Nat.le_succ _)
      · rw [List.filter_cons_of_neg (by simpa using hq)]
        exact ih'

theorem skillMatches_mono (rs rs' : List String) (j : String)
    (h : ∀ s ∈ rs, s ∈ rs') (hm : skillMatches rs j = true) :
    skillMatches rs' j = true := by
  unfold skillMatches at hm ⊢
  rcases List.any_eq_true.mp hm with ⟨r, hr, hpr⟩
  exact List.any_eq_true.mpr ⟨r, h r hr, hpr⟩

theorem jsRoundPct_mono (m m' j : Nat) (h : m ≤ m') :
    jsRoundPct m j ≤ jsRoundPct m' j := by
  unfold jsRoundPct
  exact Nat.div_le_div_right (by omega)

/-- C1: the spec says that whenever the provider-backed primary path of
`calculateMatchScore` fails, the returned result is the deterministic
skill-overlap heuristic (`generateBasicAnalysis`).  The `catch` block of the code
instead returns a hard-coded `{score: 0, strengths: [], gaps: [],
insights: [..Error occurred during matching..]}`, and `generateBasicAnalysis`
is never invoked: on the scenario-A documents the heuristic would score 50
with non-trivial insights, while the returned result scores 0.  This theorem
evaluates both at that failing input. -/
theorem calculateMatchScore_error_ignores_heuristic :
    (calculateMatchScore (Except.error "ProviderUnavailable")).score = 0 ∧
    (calculateMatchScore (Except.error "ProviderUnavailable")).strengths = [] ∧
    (calculateMatchScore (Except.error "ProviderUnavailable")).gaps = [] ∧
    (calculateMatchScore (Except.error "ProviderUnavailable")).insights =
      ["Error occurred during matching"] ∧
    basicScore "5 years Python and AWS" "Requires Kubernetes, AWS, Python" = 50 ∧
    (calculateMatchScore (Except.error "ProviderUnavailable")).score ≠
      basicScore "5 years Python and AWS" "Requires Kubernetes, AWS, Python" ∧
    (calculateMatchScore (Except.error "ProviderUnavailable")).insights ≠
      (generateBasicAnalysis "5 years Python and AWS" "Requires Kubernetes, AWS, Python").insights := by
  refine ⟨rfl, rfl, rfl, rfl, ?_, ?_, ?_⟩ <;> decide

/-- C2 counterexample: on scenario A, the fallback scorer yields 50, not 67:
the capitalized-term rule also extracts the bigram "Requires Kubernetes", so
the required set has four elements, of which two are matched. -/
theorem scenarioA_score_is_50_not_67 :
    basicScore "5 years Python and AWS" "Requires Kubernetes, AWS, Python" = 50 ∧
    basicScore "5 years Python and AWS" "Requires Kubernetes, AWS, Python" ≠ 67 ∧
    "Requires Kubernetes" ∈ cleanSkillsOf "Requires Kubernetes, AWS, Python" := by
  refine ⟨?_, ?_, ?_⟩ <;> decide

/-- C2 amended: on scenario A the fallback scorer yields
required = [AWS, Kubernetes, Python, Requires Kubernetes],
matched = [AWS, Python], and score = round(100 × 2/4) = 50. -/
theorem scenarioA_fallback_spec :
    cleanSkillsOf "Requires Kubernetes, AWS, Python" =
      ["AWS", "Kubernetes", "Python", "Requires Kubernetes"] ∧
    matchedSkillsOf "5 years Python and AWS" "Requires Kubernetes, AWS, Python" =
      ["AWS", "Python"] ∧
    basicScore "5 years Python and AWS" "Requires Kubernetes, AWS, Python" = 50 := by
  refine ⟨?_, ?_, ?_⟩ <;> decide

/-- C3 counterexample: in the RAG-service `getBestModel`, when every probe
fails (`testPassed` constantly false) but model construction succeeds, the
call does **not** fail: the fallback loop re-iterates the preference list and
caches its first entry although that model was never successfully probed. -/
theorem ragGetBestModel_succeeds_unprobed :
    ragGetBestModel none (fun _ => true) (fun _ => false) =
      (some "models/gemini-2.5-flash-lite", Except.ok "models/gemini-2.5-flash-lite") ∧
    (fun _ => false : String → Bool) "models/gemini-2.5-flash-lite" = false := by
  exact ⟨rfl, rfl⟩

/-- C3 amended: the match-service `getBestModel` behaves as the claim says
(single designated fallback probe; fixed error when it too fails), while the
RAG-service `getBestModel` falls back by re-iterating the preference list
without probing, succeeding with the first constructible model and failing
(with the same fixed message) only when every construction fails. -/
theorem getBestModel_fallback_spec :
    (∀ probe : String → Bool,
      (∀ m ∈ PREFERRED_MODELS, probe m = false) → probe matchFallbackModel = false →
        matchGetBestModel none probe = (none, Except.error noModelsMsg)) ∧
    (∀ probe : String → Bool,
      (∀ m ∈ PREFERRED_MODELS, probe m = false) → probe matchFallbackModel = true →
        matchGetBestModel none probe =
          (some matchFallbackModel, Except.ok matchFallbackModel)) ∧
    (∀ (construct testPassed : String → Bool) (m : String),
      (∀ m' ∈ PREFERRED_MODELS, testPassed m' = false) →
        PREFERRED_MODELS.find? construct = some m →
        ragGetBestModel none construct testPassed = (some m, Except.ok m)) ∧
    (∀ construct testPassed : String → Bool,
      (∀ m ∈ PREFERRED_MODELS, testPassed m = false) →
      (∀ m ∈ PREFERRED_MODELS, construct m = false) →
        ragGetBestModel none construct testPassed = (none, Except.error noModelsMsg)) := by
  refine ⟨?_, ?_, ?_, ?_⟩
  · intro probe hall hfb
    unfold matchGetBestModel
    rw [List.find?_eq_none.mpr (fun m hm => by simp [hall m hm]), hfb]
    simp
  · intro probe hall hfb
    unfold matchGetBestModel
    rw [List.find?_eq_none.mpr (fun m hm => by simp [hall m hm]), hfb]
    simp
  · intro construct testPassed m hall hfind
    unfold ragGetBestModel
    rw [List.find?_eq_none.mpr (fun m' hm' => by simp [hall m' hm']), hfind]
  · intro construct testPassed halltest hallcon
    unfold ragGetBestModel
    rw [List.find?_eq_none.mpr (fun m' hm' => by simp [halltest m' hm']),
      List.find?_eq_none.mpr (fun m' hm' => by simp [hallcon m' hm'])]

/-- Witness for the amended C3 theorem at concrete oracles. -/
theorem getBestModel_fallback_spec_witness :
    matchGetBestModel none (fun _ => false) = (none, Except.error noModelsMsg) ∧
    ragGetBestModel none (fun _ => false) (fun _ => false) =
      (none, Except.error noModelsMsg) :=
  ⟨getBestModel_fallback_spec.1 (fun _ => false) (fun _ _ => rfl) rfl,
   getBestModel_fallback_spec.2.2.2 (fun _ => false) (fun _ => false)
     (fun _ _ => rfl) (fun _ _ => rfl)⟩

/-- C10 counterexample: appending the term " Deep" — which matches the sole
role skill "Deep Learning" under the case-insensitive substring rule — to the
candidate document "Deep" merges the capitalized terms into "Deep Deep",
which no longer matches, and the score drops from 100 to 0. -/
theorem candidate_append_can_lower_score :
    basicScore "Deep" "Deep Learning" = 100 ∧
    "Deep Deep" = "Deep" ++ " Deep" ∧
    cleanSkillsOf "Deep Learning" = ["Deep Learning"] ∧
    jsIncludes (jsLower "Deep Learning") (jsLower "Deep") = true ∧
    basicScore "Deep Deep" "Deep Learning" = 0 := by
  refine ⟨?_, ?_, ?_, ?_, ?_⟩ <;> decide

/-- C10 amended: the fallback scorer is monotone at the level of extracted
skill lists: for a fixed role document, if every skill extracted from the
candidate document is still extracted from the modified candidate document,
the score does not decrease (the required list is untouched and the matched
sublist can only grow).  Adding a matched term to the raw text, however, can
perturb capitalized-term extraction and lower the score. -/
theorem basicScore_monotone_in_extracted_skills
    (resumeText resumeText' jobText : String)
    (h : ∀ s ∈ cleanSkillsOf resumeText, s ∈ cleanSkillsOf resumeText') :
    basicScore resumeText jobText ≤ basicScore resumeText' jobText := by
  unfold basicScore
  by_cases hj : 0 < (cleanSkillsOf jobText).length
  · rw [if_pos hj, if_pos hj]
    refine jsRoundPct_mono _ _ _ ?_
    unfold matchedSkillsOf
    exact length_filter_mono _ _ _
      (fun j _ hm => skillMatches_mono _ _ j h hm)
  · rw [if_neg hj, if_neg hj]

/- C7 helpers: the greedy-packing invariant. -/

theorem packGo_invariant (p : String) :
    ∀ (sents chunks : List String) (cur : String),
      (∀ c ∈ chunks, c.length ≤ chunkSize ∨ c ∈ sentencesOf p) →
      (cur = "" ∨ cur.length ≤ chunkSize ∨ cur ∈ sentencesOf p) →
      (∀ s ∈ sents, s ∈ sentencesOf p) →
      ∀ c ∈ packGo sents chunks cur, c.length ≤ chunkSize ∨ c ∈ sentencesOf p := by
  intro sents
  induction sents with
  | nil =>
    intro chunks cur hch hcur _ c hc
    unfold packGo at hc
    by_cases h0 : cur = ""
    · rw [if_pos h0] at hc
      exact hch c hc
    · rw [if_neg h0] at hc
      rcases List.mem_append.mp hc with h | h
      · exact hch c h
      · rcases List.mem_singleton.mp h with rfl
        rcases hcur with h | h
        · exact absurd h h0
        · exact h
  | cons s rest ih =>
    intro chunks cur hch hcur hs c hc
    unfold packGo at hc
    by_cases hfit : (cur ++ " " ++ s).length ≤ chunkSize
    · rw [if_pos hfit] at hc
      refine ih chunks _ hch ?_ (fun x hx => hs x (List.mem_cons_of_mem s hx)) c hc
      by_cases h0 : cur = ""
      · rw [if_pos h0]
        refine Or.inr (Or.inl ?_)
        have hsp : (" " : String).length = 1 := rfl
        have : (cur ++ " " ++ s).length = cur.length + 1 + s.length := by
          simp [String.length_append, hsp]
        omega
      · rw [if_neg h0]
        exact Or.inr (Or.inl hfit)
    · rw [if_neg hfit] at hc
      have hnew : ∀ c' ∈ (if cur = "" then chunks else chunks ++ [cur]),
          c'.length ≤ chunkSize ∨ c' ∈ sentencesOf p := by
        by_cases h0 : cur = ""
        · rw [if_pos h0]; exact hch
        · rw [if_neg h0]
          intro c' hc'
          rcases List.mem_append.mp hc' with h | h
          · exact hch c' h
          · rcases List.mem_singleton.mp h with rfl
            rcases hcur with h | h
            · exact absurd h h0
            · exact h
      exact ih _ s hnew (Or.inr (Or.inr (hs s (List.mem_cons_self s rest))))
        (fun x hx => hs x (List.mem_cons_of_mem s hx)) c hc

theorem chunkPara_mem (p c : String) (h : c ∈ chunkPara p) :
    c.length ≤ chunkSize ∨ c ∈ sentencesOf p := by
  unfold chunkPara at h
  by_cases hp : p.length ≤ chunkSize
  · rw [if_pos hp] at h
    rcases List.mem_singleton.mp h with rfl
    exact Or.inl hp
  · rw [if_neg hp] at h
    exact packGo_invariant p (sentencesOf p) [] "" (by simp) (Or.inl rfl)
      (fun _ hx => hx) c h

/-- C7: `processDocument` is a pure function (determinism is definitional);
empty input yields the empty chunk list; and every chunk is within the
800-character limit except one that is a single sentence of some paragraph,
kept whole. -/
theorem processDocument_spec :
    processDocument "" = [] ∧
    (∀ t₁ t₂ : String, t₁ = t₂ → processDocument t₁ = processDocument t₂) ∧
    (∀ t c : String, c ∈ processDocument t →
      c.length ≤ chunkSize ∨
        (chunkSize < c.length ∧ ∃ p ∈ paragraphsOf t, c ∈ sentencesOf p)) := by
  refine ⟨by decide, fun t₁ t₂ h => congrArg processDocument h, ?_⟩
  intro t c hc
  unfold processDocument at hc
  rcases List.mem_flatMap.mp hc with ⟨p, hp, hcp⟩
  rcases chunkPara_mem p c hcp with h | h
  · exact Or.inl h
  · by_cases hlen : c.length ≤ chunkSize
    · exact Or.inl hlen
    · exact Or.inr ⟨by omega, p, hp, h⟩

/-- Witness for C7 at a concrete document. -/
theorem processDocument_spec_witness :
    ("Hello world." ∈ processDocument "Hello world.") ∧
    ("Hello world.".length ≤ chunkSize ∨
      (chunkSize < "Hello world.".length ∧
        ∃ p ∈ paragraphsOf "Hello world.", "Hello world." ∈ sentencesOf p)) :=
  ⟨by decide, processDocument_spec.2.2 "Hello world." "Hello world." (by decide)⟩

/- C4 helpers. -/

theorem generateEmbeddings_ok_getElem (p : Nat → String → Option (List ℚ))
    (r : Nat → List ℚ) (cs : List String) (i : Nat) :
    (generateEmbeddings (Except.ok ()) p r cs)[i]? =
      (cs[i]?).map (fun c =>
        match p i c with
        | some emb => { id := i, text := c, embedding := emb }
        | none => { id := i, text := c, embedding := mockEmbedding c }) := by
  unfold generateEmbeddings
  rw [List.getElem?_map]
  unfold List.enum
  rw [List.getElem?_enumFrom]
  cases cs[i]? <;> simp

/-- C4: per-unit embedding failures are replaced by the deterministic mock
embedding, a function of the unit's text alone — two runs with different
oracles and chunk lists agree on the fallback vector of the same text — and
a per-unit failure does not abort the batch: the output always has exactly
one entry per input chunk, in input order, carrying the index and
text. -/
theorem generateEmbeddings_spec
    (p₁ p₂ : Nat → String → Option (List ℚ)) (r₁ r₂ : Nat → List ℚ)
    (cs₁ cs₂ : List String) (i₁ i₂ : Nat) (t : String)
    (h₁ : cs₁[i₁]? = some t) (h₂ : cs₂[i₂]? = some t)
    (f₁ : p₁ i₁ t = none) (f₂ : p₂ i₂ t = none) :
    (generateEmbeddings (Except.ok ()) p₁ r₁ cs₁)[i₁]? =
      some { id := i₁, text := t, embedding := mockEmbedding t } ∧
    (generateEmbeddings (Except.ok ()) p₂ r₂ cs₂)[i₂]? =
      some { id := i₂, text := t, embedding := mockEmbedding t } ∧
    ((generateEmbeddings (Except.ok ()) p₁ r₁ cs₁)[i₁]?).map EmbedEntry.embedding =
      ((generateEmbeddings (Except.ok ()) p₂ r₂ cs₂)[i₂]?).map EmbedEntry.embedding ∧
    (∀ (modelRes : Except String Unit) (p : Nat → String → Option (List ℚ))
        (r : Nat → List ℚ) (cs : List String),
      (generateEmbeddings modelRes p r cs).length = cs.length) ∧
    (∀ (p : Nat → String → Option (List ℚ)) (r : Nat → List ℚ) (cs : List String)
        (i : Nat) (e : EmbedEntry),
      (generateEmbeddings (Except.ok ()) p r cs)[i]? = some e →
        e.id = i ∧ cs[i]? = some e.text) := by
  have e₁ : (generateEmbeddings (Except.ok ()) p₁ r₁ cs₁)[i₁]? =
      some { id := i₁, text := t, embedding := mockEmbedding t } := by
    rw [generateEmbeddings_ok_getElem, h₁]
    simp only [Option.map_some']
    rw [f₁]
  have e₂ : (generateEmbeddings (Except.ok ()) p₂ r₂ cs₂)[i₂]? =
      some { id := i₂, text := t, embedding := mockEmbedding t } := by
    rw [generateEmbeddings_ok_getElem, h₂]
    simp only [Option.map_some']
    rw [f₂]
  refine ⟨e₁, e₂, by rw [e₁, e₂]; rfl, ?_, ?_⟩
  · intro modelRes p r cs
    unfold generateEmbeddings
    cases modelRes <;> simp
  · intro p r cs i e he
    rw [generateEmbeddings_ok_getElem] at he
    cases hcs : cs[i]? with
    | none => rw [hcs] at he; simp at he
    | some c =>
      rw [hcs] at he
      simp only [Option.map_some', Option.some.injEq] at he
      cases hp : p i c <;> rw [hp] at he <;>
        simp [← he, hcs]

/-- Witness for C4 at concrete chunk lists and oracles. -/
theorem generateEmbeddings_spec_witness :
    ((["a"] : List String)[0]? = some "a") ∧
    ((generateEmbeddings (Except.ok ()) (fun _ _ => none) (fun _ => []) ["a"])[0]?).map
        EmbedEntry.embedding =
      ((generateEmbeddings (Except.ok ()) (fun _ _ => none) (fun _ => [1]) ["x", "a"])[1]?).map
        EmbedEntry.embedding :=
  ⟨by decide,
   (generateEmbeddings_spec (fun _ _ => none) (fun _ _ => none) (fun _ => [])
     (fun _ => [1]) ["a"] ["x", "a"] 0 1 "a" (by decide) (by decide) rfl rfl).2.2.1⟩

/- C5 helpers: stability of the insertion sort under similarity classes. -/

theorem filter_orderedInsert (v : ℝ) (a : ScoredEntry) (l : List ScoredEntry) :
    (List.orderedInsert simGE a l).filter (fun e => decide (e.similarity = v)) =
      if a.similarity = v then
        a :: l.filter (fun e => decide (e.similarity = v))
      else l.filter (fun e => decide (e.similarity = v)) := by
  induction l with
  | nil =>
    by_cases ha : a.similarity = v
    · simp [List.orderedInsert, List.filter_cons, ha]
    · simp [List.orderedInsert, List.filter_cons, ha]
  | cons b t ih =>
    by_cases hr : simGE a b
    · rw [List.orderedInsert, if_pos hr]
      by_cases ha : a.similarity = v
      · simp [List.filter_cons, ha]
      · simp [List.filter_cons, ha]
    · rw [List.orderedInsert, if_neg hr]
      have hab : a.similarity < b.similarity := not_le.mp hr
      by_cases ha : a.similarity = v
      · have hb : ¬ b.similarity = v := by
          intro hb
          exact absurd (hb.trans ha.symm) (ne_of_gt hab)
        rw [if_pos ha] at ih ⊢
        simp [List.filter_cons, hb, ih]
      · rw [if_neg ha] at ih ⊢
        by_cases hb : b.similarity = v
        · simp [List.filter_cons, hb, ih]
        · simp [List.filter_cons, hb, ih]

theorem filter_insertionSort (v : ℝ) (l : List ScoredEntry) :
    (List.insertionSort simGE l).filter (fun e => decide (e.similarity = v)) =
      l.filter (fun e => decide (e.similarity = v)) := by
  induction l with
  | nil => rfl
  | cons x t ih =>
    rw [List.insertionSort, filter_orderedInsert, ih]
    by_cases hx : x.similarity = v
    · simp [List.filter_cons, hx]
    · simp [List.filter_cons, hx]

theorem take_filter_front {α : Type} (p : α → Bool) :
    ∀ (n : Nat) (l : List α), (l.take n).filter p <+: l.filter p := by
  intro n l
  induction l generalizing n with
  | nil => simp
  | cons x t ih =>
    cases n with
    | zero => simp
    | succ m =>
      rw [List.take_succ_cons]
      by_cases hx : p x = true
      · rw [List.filter_cons_of_pos hx, List.filter_cons_of_pos hx]
        obtain ⟨u, hu⟩ := ih m
        exact ⟨u, by rw [List.cons_append, hu]⟩
      · rw [List.filter_cons_of_neg (by simpa using hx),
          List.filter_cons_of_neg (by simpa using hx)]
        exact ih m

/-- C5: `searchEmbeddings` returns at most 5 results, ordered by
non-increasing similarity, and within each equal-similarity class the
results are a left-to-right selection of the stored order (resume chunks
before job chunks, each in document order) — the stable sort keeps ties in
the order of `searchPool`. -/
theorem searchEmbeddings_spec (queryRes : Except String (List ℚ))
    (store : String → List EmbedEntry) (query analysisId : String) :
    (searchEmbeddings queryRes store query analysisId).length ≤ 5 ∧
    List.Sorted simGE (searchEmbeddings queryRes store query analysisId) ∧
    ∀ v : ℝ,
      (searchEmbeddings queryRes store query analysisId).filter
          (fun e => decide (e.similarity = v)) <+:
        (searchPool queryRes store query analysisId).filter
          (fun e => decide (e.similarity = v)) := by
  refine ⟨?_, ?_, ?_⟩
  · unfold searchEmbeddings
    rw [List.length_take]
    exact min_le_left _ _
  · unfold searchEmbeddings
    exact List.Pairwise.sublist (List.take_sublist _ _)
      (List.sorted_insertionSort simGE _)
  · intro v
    unfold searchEmbeddings
    have h := take_filter_front (fun e => decide (e.similarity = v)) 5
      (List.insertionSort simGE (searchPool queryRes store query analysisId))
    rwa [filter_insertionSort] at h

/- C6 helpers. -/

theorem listSumSq_nonneg (a : List ℚ) : 0 ≤ listSumSq a := by
  induction a with
  | nil => simp [listSumSq]
  | cons x t ih =>
    unfold listSumSq at ih ⊢
    rw [List.map_cons, List.sum_cons]
    have := mul_self_nonneg x
    linarith

theorem listDot_comm (a b : List ℚ) : listDot a b = listDot b a := by
  unfold listDot
  induction a generalizing b with
  | nil => cases b <;> simp
  | cons x xs ih =>
    cases b with
    | nil => simp
    | cons y ys =>
      rw [List.zipWith_cons_cons, List.zipWith_cons_cons, List.sum_cons,
        List.sum_cons, ih ys, mul_comm]

theorem listDot_sq_le (a : List ℚ) :
    ∀ b : List ℚ, a.length = b.length →
      (listDot a b) ^ 2 ≤ listSumSq a * listSumSq b := by
  induction a with
  | nil =>
    intro b h
    simp [listDot, listSumSq]
  | cons x xs ih =>
    intro b h
    cases b with
    | nil => simp at h
    | cons y ys =>
      have hlen : xs.length = ys.length := by simpa using h
      have hd := ih ys hlen
      have hx := listSumSq_nonneg xs
      have hy := listSumSq_nonneg ys
      have hdotc : listDot (x :: xs) (y :: ys) = x * y + listDot xs ys := by
        unfold listDot
        rw [List.zipWith_cons_cons, List.sum_cons]
      have hsx : listSumSq (x :: xs) = x * x + listSumSq xs := by
        unfold listSumSq
        rw [List.map_cons, List.sum_cons]
      have hsy : listSumSq (y :: ys) = y * y + listSumSq ys := by
        unfold listSumSq
        rw [List.map_cons, List.sum_cons]
      rw [hdotc, hsx, hsy]
      rcases eq_or_lt_of_le hx with hx0 | hxpos
      · have hd0 : listDot xs ys = 0 := by
          have h1 : listDot xs ys ^ 2 ≤ 0 := by
            rw [← hx0] at hd
            simpa using hd
          have h2 : (0 : ℚ) ≤ listDot xs ys ^ 2 := sq_nonneg _
          have h3 : listDot xs ys ^ 2 = 0 := le_antisymm h1 h2
          exact pow_eq_zero_iff (two_ne_zero) |>.mp h3
        rw [← hx0, hd0]
        nlinarith [mul_nonneg (mul_self_nonneg x) hy]
      · nlinarith [sq_nonneg (x * listDot xs ys - y * listSumSq xs),
          mul_nonneg (add_nonneg (mul_self_nonneg x) hx) (sub_nonneg.mpr hd), hxpos]

theorem isZeroVec_sumSq (a : List ℚ) (h : isZeroVec a = true) : listSumSq a = 0 := by
  induction a with
  | nil => simp [listSumSq]
  | cons x t ih =>
    unfold isZeroVec at h ih
    rw [List.all_cons, Bool.and_eq_true] at h
    have hx : x = 0 := by simpa using h.1
    unfold listSumSq at ih ⊢
    rw [List.map_cons, List.sum_cons, hx, ih h.2]
    ring

theorem sqrt_cast_eq_zero (q : ℚ) (hq : 0 ≤ q) :
    Real.sqrt (q : ℝ) = 0 ↔ q = 0 := by
  rw [Real.sqrt_eq_zero (by exact_mod_cast hq)]
  exact_mod_cast Iff.rfl

/-- C6: cosine similarity is symmetric; always within [-1, 1]; and returns 0
on length mismatch and on zero vectors (never an error). -/
theorem cosineSimilarity_spec (a b : List ℚ) :
    cosineSimilarity a b = cosineSimilarity b a ∧
    -1 ≤ cosineSimilarity a b ∧ cosineSimilarity a b ≤ 1 ∧
    (a.length ≠ b.length → cosineSimilarity a b = 0) ∧
    (isZeroVec a = true ∨ isZeroVec b = true → cosineSimilarity a b = 0) := by
  have bounds : ∀ x y : List ℚ, -1 ≤ cosineSimilarity x y ∧ cosineSimilarity x y ≤ 1 := by
    intro x y
    unfold cosineSimilarity
    by_cases hl : x.length ≠ y.length
    · rw [if_pos hl]; norm_num
    · rw [if_neg hl]
      by_cases hz : Real.sqrt ((listSumSq x : ℚ) : ℝ) = 0 ∨
          Real.sqrt ((listSumSq y : ℚ) : ℝ) = 0
      · rw [if_pos hz]; norm_num
      · rw [if_neg hz]
        push_neg at hz
        have hsx : 0 < Real.sqrt ((listSumSq x : ℚ) : ℝ) :=
          lt_of_le_of_ne (Real.sqrt_nonneg _) (Ne.symm hz.1)
        have hsy : 0 < Real.sqrt ((listSumSq y : ℚ) : ℝ) :=
          lt_of_le_of_ne (Real.sqrt_nonneg _) (Ne.symm hz.2)
        have hlen : x.length = y.length := not_ne_iff.mp hl
        have hcs : ((listDot x y : ℚ) : ℝ) ^ 2 ≤
            ((listSumSq x : ℚ) : ℝ) * ((listSumSq y : ℚ) : ℝ) := by
          exact_mod_cast listDot_sq_le x y hlen
        have habs : |((listDot x y : ℚ) : ℝ)| ≤
            Real.sqrt ((listSumSq x : ℚ) : ℝ) * Real.sqrt ((listSumSq y : ℚ) : ℝ) := by
          have h1 : |((listDot x y : ℚ) : ℝ)| =
              Real.sqrt (((listDot x y : ℚ) : ℝ) ^ 2) := (Real.sqrt_sq_eq_abs _).symm
          have h0 : (0 : ℝ) ≤ ((listSumSq x : ℚ) : ℝ) := by
            exact_mod_cast listSumSq_nonneg x
          rw [h1, ← Real.sqrt_mul h0 ((listSumSq y : ℚ) : ℝ)]
          exact Real.sqrt_le_sqrt hcs
        have hden : 0 < Real.sqrt ((listSumSq x : ℚ) : ℝ) *
            Real.sqrt ((listSumSq y : ℚ) : ℝ) := mul_pos hsx hsy
        have : |((listDot x y : ℚ) : ℝ) /
            (Real.sqrt ((listSumSq x : ℚ) : ℝ) * Real.sqrt ((listSumSq y : ℚ) : ℝ))| ≤ 1 := by
          rw [abs_div, abs_of_pos hden]
          exact (div_le_one hden).mpr habs
        exact abs_le.mp this
  refine ⟨?_, (bounds a b).1, (bounds a b).2, ?_, ?_⟩
  · unfold cosineSimilarity
    by_cases hl : a.length = b.length
    · have h1 : ¬ a.length ≠ b.length := fun h => h hl
      have h2 : ¬ b.length ≠ a.length := fun h => h hl.symm
      rw [if_neg h1, if_neg h2]
      by_cases hz : Real.sqrt ((listSumSq a : ℚ) : ℝ) = 0 ∨
          Real.sqrt ((listSumSq b : ℚ) : ℝ) = 0
      · rw [if_pos hz, if_pos (Or.symm hz)]
      · have hz' : ¬ (Real.sqrt ((listSumSq b : ℚ) : ℝ) = 0 ∨
            Real.sqrt ((listSumSq a : ℚ) : ℝ) = 0) := fun h => hz (Or.symm h)
        rw [if_neg hz, if_neg hz']
        rw [listDot_comm, mul_comm]
    · have h1 : a.length ≠ b.length := hl
      have h2 : b.length ≠ a.length := fun h => hl h.symm
      rw [if_pos h1, if_pos h2]
  · intro h
    unfold cosineSimilarity
    rw [if_pos h]
  · intro h
    unfold cosineSimilarity
    by_cases hl : a.length ≠ b.length
    · rw [if_pos hl]
    · rw [if_neg hl]
      have hz : Real.sqrt ((listSumSq a : ℚ) : ℝ) = 0 ∨
          Real.sqrt ((listSumSq b : ℚ) : ℝ) = 0 := by
        rcases h with h | h
        · exact Or.inl ((sqrt_cast_eq_zero _ (listSumSq_nonneg a)).mpr (isZeroVec_sumSq a h))
        · exact Or.inr ((sqrt_cast_eq_zero _ (listSumSq_nonneg b)).mpr (isZeroVec_sumSq b h))
      rw [if_pos hz]

/-- Witness for the conditional conjuncts of C6 at concrete vectors. -/
theorem cosineSimilarity_spec_witness :
    cosineSimilarity [1] [1, 2] = 0 ∧ cosineSimilarity [0, 0] [0, 5] = 0 :=
  ⟨(cosineSimilarity_spec [1] [1, 2]).2.2.2.1 (by decide),
   (cosineSimilarity_spec [0, 0] [0, 5]).2.2.2.2 (Or.inl (by decide))⟩

/- C9 helpers. -/

theorem updateStore_self (f : String → Option AnalysisRecord) (id : String)
    (v : AnalysisRecord) : updateStore f id v id = some v := by
  unfold updateStore
  rw [if_pos rfl]

/-- C9: a second `analyzeResume` request for an identifier already in the
processing queue is rejected with the distinct "already in progress" signal
and changes nothing; the identifier is in the queue of the state reached
before any processing step runs (`midState`), so the concurrent request
observes it there; and after the run finishes — successfully or not — the
identifier is removed from the queue and the record is terminal. -/
theorem analyzeResume_guard_spec
    (st : ServerState) (id : String) (rec : AnalysisRecord)
    (run run' : AnalysisRecord → Except String AnalysisResults)
    (hid : id ≠ "")
    (hrec : st.storage id = some rec)
    (hnotq : id ∉ st.queue)
    (hstat : rec.status = AnalysisStatus.uploaded) :
    (∀ (st' : ServerState) (r' : AnalysisRecord),
      st'.storage id = some r' → id ∈ st'.queue →
        analyzeResume st' id run' = (st', AnalyzeResponse.alreadyInProgress)) ∧
    id ∈ (midState st id rec).queue ∧
    analyzeResume (midState st id rec) id run' =
      (midState st id rec, AnalyzeResponse.alreadyInProgress) ∧
    (analyzeResume st id run).1.queue = st.queue ∧
    ((analyzeResume st id run).1.storage id).map AnalysisRecord.status =
      some (match run rec with
            | .ok _ => AnalysisStatus.completed
            | .error _ => AnalysisStatus.error) := by
  have guard : ∀ (st' : ServerState) (r' : AnalysisRecord),
      st'.storage id = some r' → id ∈ st'.queue →
        analyzeResume st' id run' = (st', AnalyzeResponse.alreadyInProgress) := by
    intro st' r' h hq
    simp [analyzeResume, hid, h, hq]
  refine ⟨guard, List.mem_cons_self id st.queue,
    guard _ _ (updateStore_self st.storage id _) (List.mem_cons_self id st.queue),
    ?_, ?_⟩ <;>
  · cases hrun : run rec <;>
      simp [analyzeResume, hid, hrec, hnotq, hstat, hrun, midState, updateStore]

/-- Witness for C9 at a concrete state: a fresh record not in the queue. -/
theorem analyzeResume_guard_spec_witness :
    (analyzeResume
      { storage := fun s => if s = "abc12" then
          some { status := AnalysisStatus.uploaded, resumeData := "r", jobData := "j",
                 results := none, errorMsg := none } else none,
        queue := [] } "abc12"
      (fun _ => Except.ok { matchScore := 42, resumeText := "rt", jobDescriptionText := "jt" })).1.queue
      = [] ∧
    analyzeResume
      (midState
        { storage := fun s => if s = "abc12" then
            some { status := AnalysisStatus.uploaded, resumeData := "r", jobData := "j",
                   results := none, errorMsg := none } else none,
          queue := [] } "abc12"
        { status := AnalysisStatus.uploaded, resumeData := "r", jobData := "j",
          results := none, errorMsg := none }) "abc12"
      (fun _ => Except.ok { matchScore := 42, resumeText := "rt", jobDescriptionText := "jt" }) =
      (midState
        { storage := fun s => if s = "abc12" then
            some { status := AnalysisStatus.uploaded, resumeData := "r", jobData := "j",
                   results := none, errorMsg := none } else none,
          queue := [] } "abc12"
        { status := AnalysisStatus.uploaded, resumeData := "r", jobData := "j",
          results := none, errorMsg := none },
       AnalyzeResponse.alreadyInProgress) := by
  have h := analyzeResume_guard_spec
    { storage := fun s => if s = "abc12" then
        some { status := AnalysisStatus.uploaded, resumeData := "r", jobData := "j",
               results := none, errorMsg := none } else none,
      queue := [] } "abc12"
    { status := AnalysisStatus.uploaded, resumeData := "r", jobData := "j",
      results := none, errorMsg := none }
    (fun _ => Except.ok { matchScore := 42, resumeText := "rt", jobDescriptionText := "jt" })
    (fun _ => Except.ok { matchScore := 42, resumeText := "rt", jobDescriptionText := "jt" })
    (by decide) (by decide) (by decide) rfl
  exact ⟨h.2.2.2.1, h.2.2.1⟩

/-- C8: when retrieval returns zero context items and both fallback context
sources (blank-separated resume chunks with trimmed length over 50, and the
key-line extraction) are empty — or no resume text is stored at all — the
chat controller returns the explicit no-context error; the outcome does not
depend on the generation oracle, so no answer is generated; and
`generateResponse` itself fails on an empty context list. -/
theorem askQuestion_no_context
    (storage : String → Option AnalysisRecord)
    (gen gen' : String → List CtxItem → Except String String)
    (analysisId question : String) (analysis : AnalysisRecord)
    (h1 : analysisId ≠ "") (h2 : ¬ analysisId.length < 5)
    (h3 : question ≠ "") (h4 : String.mk (jsTrim question.data) ≠ "")
    (h5 : storage analysisId = some analysis)
    (h6 : analysis.status = AnalysisStatus.completed)
    (h7 : ∀ r, analysis.results = some r →
      fallbackChunkItems r.resumeText = [] ∧ keyLines r.resumeText = []) :
    askQuestion storage (Except.ok []) gen analysisId question =
      ChatResponse.badRequest
        "No context available to answer this question. Please ensure the analysis is complete." ∧
    askQuestion storage (Except.ok []) gen analysisId question =
      askQuestion storage (Except.ok []) gen' analysisId question ∧
    (∀ (g : String → Except String String) (q : String),
      ∃ e, generateResponse g q [] = Except.error e) := by
  have key : ∀ (g : String → List CtxItem → Except String String),
      askQuestion storage (Except.ok []) g analysisId question =
        ChatResponse.badRequest
          "No context available to answer this question. Please ensure the analysis is complete." := by
    intro g
    match hres : analysis.results with
    | none =>
      simp [askQuestion, h1, h2, h3, h4, h5, h6, hasResumeText, hres]
    | some r =>
      rcases h7 r hres with ⟨hf, hk⟩
      by_cases hrt : r.resumeText.isEmpty
      · simp [askQuestion, h1, h2, h3, h4, h5, h6, hasResumeText, hres, hrt]
      · simp [askQuestion, h1, h2, h3, h4, h5, h6, hasResumeText, hres, hrt,
          resumeTextOf, hf, hk]
  refine ⟨key gen, (key gen).trans (key gen').symm, ?_⟩
  intro g q
  by_cases hq : q = ""
  · exact ⟨"Missing question or context for response generation",
      by simp [generateResponse, hq]⟩
  · exact ⟨"No context available to answer this question",
      by simp [generateResponse, hq]⟩

/-- Witness for C8 at a concrete analysis whose resume text produces no
fallback context. -/
theorem askQuestion_no_context_witness :
    askQuestion
      (fun s => if s = "abcde" then
        some { status := AnalysisStatus.completed, resumeData := "r", jobData := "j",
               results := some { matchScore := 0, resumeText := "short",
                                 jobDescriptionText := "jd" },
               errorMsg := none } else none)
      (Except.ok []) (fun _ _ => Except.ok "fabricated") "abcde" "What skills?" =
      ChatResponse.badRequest
        "No context available to answer this question. Please ensure the analysis is complete." ∧
    (∃ e, generateResponse (fun _ => Except.ok "fabricated") "What skills?" [] =
      Except.error e) := by
  have h := askQuestion_no_context
    (fun s => if s = "abcde" then
      some { status := AnalysisStatus.completed, resumeData := "r", jobData := "j",
             results := some { matchScore := 0, resumeText := "short",
                               jobDescriptionText := "jd" },
             errorMsg := none } else none)
    (fun _ _ => Except.ok "fabricated") (fun _ _ => Except.ok "fabricated")
    "abcde" "What skills?"
    { status := AnalysisStatus.completed, resumeData := "r", jobData := "j",
      results := some { matchScore := 0, resumeText := "short", jobDescriptionText := "jd" },
      errorMsg := none }
    (by decide) (by decide) (by decide) (by decide) (by decide) rfl
    (by intro r hr; cases hr; exact ⟨rfl, rfl⟩)
  exact ⟨h.1, h.2.2 _ "What skills?"⟩

/-- Witness for the amended C10 theorem. -/
theorem basicScore_monotone_witness :
    (∀ s ∈ cleanSkillsOf "Python", s ∈ cleanSkillsOf "Python AWS") ∧
    basicScore "Python" "Requires Kubernetes, AWS, Python" ≤
      basicScore "Python AWS" "Requires Kubernetes, AWS, Python" :=
  ⟨by decide, basicScore_monotone_in_extracted_skills _ _ _ (by decide)⟩

end ResumeScreening
